import Mathlib

/-!
# Verification of the rule-based RCA engine

A shallow embedding of the Root Cause Analysis core of this repository
(`utils/rca_analyzer.py` together with the resolution-time computation of
`utils/data_processor.py`), with theorems settling the frozen claims about it.

Modelling conventions:
* pandas timestamps are `Int` seconds since the Unix epoch; a missing value
  (`NaT`/`NaN`) is `none` of an `Option`;
* a DataFrame is a `Store`: per-column presence flags plus a list of rows;
* Python's stable `list.sort`/`sorted` is modelled by the stable insertion
  sort `sSort` (any stable comparison sort of a totally preordered key
  sequence yields the same list);
* regular expressions in the source are alternations of literal words (plus
  one numeric date pattern); they are modelled by case-insensitive substring
  search over the expanded literal lists, and the date pattern by an explicit
  backtracking matcher with Python's leftmost, greedy-with-backtracking
  semantics; `\w`/`\d`/`\s` are modelled at ASCII;
* `float`/`Timestamp` arithmetic on durations is exact rational arithmetic.
-/

namespace RCA

/-! ## Generic stable sort (model of Python's stable `list.sort` / `sorted`) -/

/-- Insert `a` before the first element `b` with `le a b`. -/
def sInsert {α : Type} (le : α → α → Bool) (a : α) : List α → List α
  | [] => [a]
  | b :: l => if le a b then a :: b :: l else b :: sInsert le a l

/-- Stable insertion sort: the model of Python's stable comparison sort. -/
def sSort {α : Type} (le : α → α → Bool) : List α → List α
  | [] => []
  | a :: l => sInsert le a (sSort le l)

theorem mem_sInsert {α : Type} (le : α → α → Bool) (a x : α) :
    ∀ l : List α, x ∈ sInsert le a l ↔ x = a ∨ x ∈ l
  | [] => by simp [sInsert]
  | b :: l => by
    by_cases h : le a b
    · simp [sInsert, h]
    · simp only [sInsert, if_neg h, List.mem_cons, mem_sInsert le a x l]
      tauto

theorem mem_sSort {α : Type} (le : α → α → Bool) (x : α) :
    ∀ l : List α, x ∈ sSort le l ↔ x ∈ l
  | [] => by simp [sSort]
  | a :: l => by
    simp only [sSort, mem_sInsert, List.mem_cons, mem_sSort le x l]

theorem pairwise_sInsert {α : Type} (le : α → α → Bool) (a : α) :
    ∀ l : List α,
      (∀ b ∈ l, le a b = true ∨ le b a = true) →
      (∀ b ∈ l, ∀ c ∈ l, le a b = true → le b c = true → le a c = true) →
      l.Pairwise (fun x y => le x y = true) →
      (sInsert le a l).Pairwise (fun x y => le x y = true)
  | [], _, _, _ => by simp [sInsert]
  | b :: l, htot, htrans, hp => by
    rcases List.pairwise_cons.mp hp with ⟨hbl, hpl⟩
    by_cases h : le a b
    · rw [sInsert, if_pos h]
      refine List.pairwise_cons.mpr ⟨?_, hp⟩
      intro c hc
      rcases List.mem_cons.mp hc with rfl | hc
      · exact h
      · exact htrans b (by simp) c (by simp [hc]) h (hbl c hc)
    · rw [sInsert, if_neg h]
      refine List.pairwise_cons.mpr ⟨?_, ?_⟩
      · intro c hc
        rcases (mem_sInsert le a c l).mp hc with hca | hc
        · rw [hca]
          rcases htot b (by simp) with h' | h'
          · exact absurd h' h
          · exact h'
        · exact hbl c hc
      · exact pairwise_sInsert le a l
          (fun c hc => htot c (by simp [hc]))
          (fun x hx y hy => htrans x (by simp [hx]) y (by simp [hy]))
          hpl

theorem pairwise_sSort {α : Type} (le : α → α → Bool) :
    ∀ l : List α,
      (∀ x ∈ l, ∀ y ∈ l, le x y = true ∨ le y x = true) →
      (∀ x ∈ l, ∀ y ∈ l, ∀ z ∈ l, le x y = true → le y z = true → le x z = true) →
      (sSort le l).Pairwise (fun x y => le x y = true)
  | [], _, _ => by simp [sSort]
  | a :: l, htot, htrans => by
    rw [sSort]
    refine pairwise_sInsert le a (sSort le l) ?_ ?_ ?_
    · intro b hb
      exact htot a (by simp) b (by simp [(mem_sSort le b l).mp hb])
    · intro b hb c hc
      exact htrans a (by simp) b (by simp [(mem_sSort le b l).mp hb])
        c (by simp [(mem_sSort le c l).mp hc])
    · exact pairwise_sSort le l
        (fun x hx y hy => htot x (by simp [hx]) y (by simp [hy]))
        (fun x hx y hy z hz => htrans x (by simp [hx]) y (by simp [hy]) z (by simp [hz]))

theorem filter_sInsert_pos {α : Type} (le : α → α → Bool) (p : α → Bool) (a : α) :
    ∀ l : List α, p a = true → (∀ b ∈ l, p b = true → le a b = true) →
      (sInsert le a l).filter p = a :: l.filter p
  | [], hpa, _ => by simp [sInsert, hpa]
  | b :: l, hpa, hcl => by
    by_cases h : le a b
    · simp [sInsert, h, List.filter, hpa]
    · have hpb : p b = false := by
        by_contra hpb
        exact h (hcl b (by simp) (by simpa using hpb))
      rw [sInsert, if_neg h]
      simp only [List.filter, hpb]
      exact filter_sInsert_pos le p a l hpa (fun c hc => hcl c (by simp [hc]))

theorem filter_sInsert_neg {α : Type} (le : α → α → Bool) (p : α → Bool) (a : α) :
    ∀ l : List α, p a = false → (sInsert le a l).filter p = l.filter p
  | [], hpa => by simp [sInsert, hpa]
  | b :: l, hpa => by
    by_cases h : le a b
    · simp [sInsert, h, List.filter, hpa]
    · rw [sInsert, if_neg h]
      simp only [List.filter]
      rw [filter_sInsert_neg le p a l hpa]

/-- Stability of `sSort`: filtering by any class of keys on which `le` always
holds recovers the original order. -/
theorem filter_sSort {α : Type} (le : α → α → Bool) (p : α → Bool) :
    ∀ l : List α,
      (∀ a ∈ l, ∀ b ∈ l, p a = true → p b = true → le a b = true) →
      (sSort le l).filter p = l.filter p
  | [], _ => by simp [sSort]
  | a :: l, hcl => by
    rw [sSort]
    by_cases hpa : p a
    · rw [filter_sInsert_pos le p a (sSort le l) hpa]
      · rw [filter_sSort le p l
          (fun x hx y hy => hcl x (by simp [hx]) y (by simp [hy]))]
        simp [List.filter, hpa]
      · intro b hb hpb
        exact hcl a (by simp) b (by simp [(mem_sSort le b l).mp hb]) hpa hpb
    · rw [filter_sInsert_neg le p a (sSort le l) (by simpa using hpa)]
      rw [filter_sSort le p l
        (fun x hx y hy => hcl x (by simp [hx]) y (by simp [hy]))]
      simp [List.filter, by simpa using hpa]

/-! ## Character and string utilities (ASCII models of `str.lower`,
`str.contains`, `\w`, `\s`, `\d`) -/

/-- ASCII decimal digit, the model of `\d`. -/
def isDig (c : Char) : Bool := '0' ≤ c && c ≤ '9'

/-- ASCII word character, the model of `\w`. -/
def isWordChar (c : Char) : Bool := c.isAlphanum || c = '_'

/-- Whitespace as recognised by Python's `str.split` and `\s` (ASCII part). -/
def isSpaceChar (c : Char) : Bool :=
  c = ' ' || c = '\t' || c = '\n' || c = '\x0d' || c = '\x0b' || c = '\x0c'

/-- Lower-cased character list of a string (`str.lower`, ASCII). -/
def lowerList (s : String) : List Char := s.toList.map Char.toLower

/-- Substring test on character lists. -/
def isInfixB (needle hay : List Char) : Bool :=
  hay.tails.any (fun t => needle.isPrefixOf t)

/-- Case-insensitive substring test: the model of
`Series.str.contains(term, case=False)` for the alphanumeric terms produced by
`_extract_key_terms` (no regex metacharacters) and of `re.search` for a
literal word under `re.IGNORECASE`. -/
def containsCI (needle hay : String) : Bool :=
  isInfixB (lowerList needle) (lowerList hay)

/-- Model of `re.search` for an alternation of literal words under `re.IGNORECASE`:
true iff some literal occurs in the text, case-insensitively. -/
def matchesAny (lits : List String) (hay : String) : Bool :=
  lits.any (fun p => containsCI p hay)

/-- The string a missing (`NaN`) value prints as under Python's `str()`. -/
def strOfOpt (v : Option String) : String := v.getD "nan"

/-- Python's `str.capitalize` on an ASCII word: first character upper-cased,
the rest lower-cased. -/
def capitalizeStr (s : String) : String :=
  match s.toList with
  | [] => ""
  | c :: cs => String.mk (c.toUpper :: cs.map Char.toLower)

/-! ## The date-extraction regex of `identify_related_tickets`

The `re.search` on line 66 (one or two digits, a slash-or-dash separator,
one or two digits, a separator, two to four digits, each digit group
captured) is modelled by an explicit matcher with Python's semantics:
positions are tried left to right, and at each position the quantifiers
backtrack greedily (the one-or-two-digit groups try 2 digits then 1; the
year group tries 4, 3, then 2). -/

/-- Take exactly `n` digits from the front, returning them and the rest. -/
def digitsTake : List Char → Nat → Option (List Char × List Char)
  | cs, 0 => some ([], cs)
  | [], _ + 1 => none
  | c :: cs, n + 1 =>
    if isDig c then (digitsTake cs n).map (fun p => (c :: p.1, p.2)) else none

/-- Match the slash-or-dash separator class. -/
def sepTake : List Char → Option (List Char)
  | [] => none
  | c :: cs => if c = '/' || c = '-' then some cs else none

/-- Try to match the whole date pattern anchored at the given position,
backtracking over the quantifier lengths exactly as Python's engine does. -/
def matchDateAt (cs : List Char) : Option (String × String × String) :=
  let try1 : Nat → Option (String × String × String) := fun n1 =>
    match digitsTake cs n1 with
    | none => none
    | some (m, r1) =>
      match sepTake r1 with
      | none => none
      | some r2 =>
        let try2 : Nat → Option (String × String × String) := fun n2 =>
          match digitsTake r2 n2 with
          | none => none
          | some (d, r3) =>
            match sepTake r3 with
            | none => none
            | some r4 =>
              let try3 : Nat → Option (String × String × String) := fun n3 =>
                (digitsTake r4 n3).map
                  (fun p => (String.mk m, String.mk d, String.mk p.1))
              (try3 4).orElse (fun _ => (try3 3).orElse (fun _ => try3 2))
        (try2 2).orElse (fun _ => try2 1)
  (try1 2).orElse (fun _ => try1 1)

/-- Model of `re.search`: first position (left to right) where the pattern matches. -/
def findDateMatch : List Char → Option (String × String × String)
  | [] => none
  | c :: cs => (matchDateAt (c :: cs)).orElse (fun _ => findDateMatch cs)

/-! ## Calendar arithmetic (model of `pd.to_datetime` on `"Y-M-D"` strings) -/

/-- Numeric value of a digit string. -/
def natOfDigits (s : String) : Nat :=
  s.toList.foldl (fun a c => a * 10 + (c.toNat - '0'.toNat)) 0

/-- Gregorian leap year. -/
def isLeap (y : Nat) : Bool := y % 4 = 0 && (y % 100 ≠ 0 || y % 400 = 0)

def daysInMonth (y m : Nat) : Nat :=
  if m = 2 then (if isLeap y then 29 else 28)
  else if m = 4 || m = 6 || m = 9 || m = 11 then 30
  else 31

/-- Days since 1970-01-01 of a civil date (Hinnant's `days_from_civil`). -/
def epochDay (y m d : Nat) : Int :=
  let y' : Int := if m ≤ 2 then (y : Int) - 1 else (y : Int)
  let era : Int := Int.fdiv y' 400
  let yoe : Int := y' - era * 400
  let mp : Int := if m ≤ 2 then (m : Int) + 9 else (m : Int) - 3
  let doy : Int := Int.fdiv (153 * mp + 2) 5 + (d : Int) - 1
  let doe : Int := yoe * 365 + Int.fdiv yoe 4 - Int.fdiv yoe 100 + doy
  era * 146097 + doe - 719468

/-- First date representable by a (date-valued) `pd.Timestamp`. -/
def tsMinDay : Int := epochDay 1677 9 22

/-- Last date representable by a (date-valued) `pd.Timestamp`. -/
def tsMaxDay : Int := epochDay 2262 4 11

/-- The `pd.Timestamp` for midnight of a civil date, in epoch seconds;
`none` when `pd.to_datetime` would raise (invalid month/day or a date
outside the representable `Timestamp` range). -/
def parseYMD (y m d : Nat) : Option Int :=
  if 1 ≤ m ∧ m ≤ 12 ∧ 1 ≤ d ∧ d ≤ daysInMonth y m ∧
      tsMinDay ≤ epochDay y m d ∧ epochDay y m d ≤ tsMaxDay then
    some (86400 * epochDay y m d)
  else none

/-- Lines 70-77 of `identify_related_tickets`: numeric conversion of the
regex groups (two-digit years mapped to the 2000s) followed by
`pd.to_datetime(f"{year}-{month}-{day}")`. -/
def parseGroups (g : String × String × String) : Option Int :=
  let m := natOfDigits g.1
  let d := natOfDigits g.2.1
  let ys := g.2.2
  let y := if ys.length = 2 then 2000 + natOfDigits ys else natOfDigits ys
  parseYMD y m d

/-- The incident date extracted from the description: the first regex match,
if it parses; `identify_related_tickets` never looks at later matches. -/
def extractIncidentDate (text : String) : Option Int :=
  (findDateMatch text.toList).bind parseGroups

/-- Mode selection of the Incident Locator: time-window mode iff a date was
extracted (`incident_date is not None`). -/
def usesTimeWindowMode (text : String) : Bool :=
  (extractIncidentDate text).isSome

/-- Spec-side definition (for claim C4, following the claim's words): the
description *contains* a well-formed date, i.e. the date pattern matches at
some position and that match parses to a valid calendar date under the
code's month/day/year convention. -/
def containsWellFormedDate (text : String) : Bool :=
  text.toList.tails.any (fun cs => ((matchDateAt cs).bind parseGroups).isSome)

/-! ## Counters and value counts -/

/-- Distinct elements in order of first occurrence (insertion order of a
Python `dict` / `Counter`), with an explicit seen-set accumulator. -/
def uniqueFirstAux {α : Type} [DecidableEq α] : List α → List α → List α
  | [], _ => []
  | a :: l, seen =>
    if a ∈ seen then uniqueFirstAux l seen else a :: uniqueFirstAux l (a :: seen)

/-- Distinct elements in order of first occurrence. -/
def uniqueFirst {α : Type} [DecidableEq α] (l : List α) : List α :=
  uniqueFirstAux l []

/-- Model of `Series.value_counts()`: distinct values with their multiplicities,
sorted by count descending (ties kept in first-occurrence order). -/
def valueCounts {α : Type} [DecidableEq α] (l : List α) : List (α × Nat) :=
  sSort (fun a b => b.2 ≤ a.2) ((uniqueFirst l).map (fun k => (k, l.count k)))

/-- Add `n` to key `k` of an insertion-ordered association list
(a Python `dict`/`defaultdict`: update in place if present, else append). -/
def bump (l : List (String × Nat)) (k : String) (n : Nat) : List (String × Nat) :=
  match l with
  | [] => [(k, n)]
  | (k', c) :: rest => if k' = k then (k', c + n) :: rest else (k', c) :: bump rest k n

/-- Count stored under key `k` (0 when the key is absent, as for a
`defaultdict(int)` that was never bumped at `k`). -/
def errGet (l : List (String × Nat)) (k : String) : Nat :=
  match l.lookup k with
  | some c => c
  | none => 0

theorem errGet_bump (l : List (String × Nat)) (k' k : String) (n : Nat) :
    errGet (bump l k' n) k = errGet l k + (if k' = k then n else 0) := by
  induction l with
  | nil =>
    by_cases h : k' = k
    · subst h
      simp [bump, errGet, List.lookup]
    · have hb : (k == k') = false := beq_eq_false_iff_ne.mpr (fun hh => h hh.symm)
      simp [bump, errGet, List.lookup, hb, h]
  | cons hd tl ih =>
    obtain ⟨k0, c0⟩ := hd
    by_cases h0 : k0 = k'
    · subst h0
      by_cases h : k0 = k
      · subst h
        simp [bump, errGet, List.lookup]
      · have hb : (k == k0) = false := beq_eq_false_iff_ne.mpr (fun hh => h hh.symm)
        simp [bump, errGet, List.lookup, hb, h]
    · rw [bump, if_neg h0]
      by_cases h : k0 = k
      · subst h
        simp only [errGet, List.lookup, beq_self_eq_true]
        rw [if_neg (fun hh => h0 hh.symm)]
        omega
      · have hb : (k == k0) = false := beq_eq_false_iff_ne.mpr (fun hh => h hh.symm)
        simp only [errGet, List.lookup, hb] at ih ⊢
        exact ih

/-! ## `_extract_key_terms` (lines 120-137) -/

/-- The fixed stopword list of `_extract_key_terms`. -/
def commonWords : List String :=
  ["the", "and", "is", "in", "to", "a", "for", "of", "on", "with"]

/-- Lower-case the text and replace every character that is neither a word
character nor whitespace by a space (the `re.sub` on line 127). -/
def cleanText (text : String) : List Char :=
  (lowerList text).map (fun c => if isWordChar c || isSpaceChar c then c else ' ')

/-- Model of `str.split()`: maximal runs of non-whitespace characters. -/
def splitWordsAux : List Char → List Char → List String
  | [], acc => if acc.isEmpty then [] else [String.mk acc.reverse]
  | c :: cs, acc =>
    if isSpaceChar c then
      if acc.isEmpty then splitWordsAux cs []
      else String.mk acc.reverse :: splitWordsAux cs []
    else splitWordsAux cs (c :: acc)

def splitWords (cs : List Char) : List String := splitWordsAux cs []

/-- The tokenised words of the incident description. -/
def tokenizeWords (text : String) : List String := splitWords (cleanText text)

/-- Words that survive the stopword and minimum-length filters. -/
def filteredTerms (text : String) : List String :=
  (tokenizeWords text).filter (fun w => w ∉ commonWords && 4 ≤ w.length)

/-- Model of `_extract_key_terms`: the ten most frequent surviving words
(`Counter.most_common(10)`: counts descending, ties in first-occurrence
order). -/
def extractKeyTerms (text : String) : List String :=
  ((valueCounts (filteredTerms text)).take 10).map Prod.fst

/-! ## The data model: tickets and ticket stores -/

/-- One row of the ticket table. Every field is optional: `none` is a
missing value (`NaN`/`NaT`). Timestamps are epoch seconds;
`resolutionTimeHours` is the derived duration column of `preprocess_data`.
The `createdHour`/`createdDay`/`createdDate` fields are the derived columns
added in place by `RCAAnalyzer._preprocess_data`. -/
structure Ticket where
  number : Option String := none
  shortDescription : Option String := none
  description : Option String := none
  category : Option String := none
  subcategory : Option String := none
  status : Option String := none
  resolution : Option String := none
  priority : Option String := none
  affectedUser : Option String := none
  createdAt : Option Int := none
  resolvedAt : Option Int := none
  updatedAt : Option Int := none
  resolutionTimeHours : Option ℚ := none
  createdHour : Option Nat := none
  createdDay : Option String := none
  createdDate : Option Int := none
deriving DecidableEq

/-- A ticket DataFrame: which columns exist, plus the rows. A field of a
row is meaningful only when the corresponding column flag is set. -/
structure Store where
  hasNumber : Bool := false
  hasShortDescription : Bool := false
  hasDescription : Bool := false
  hasCategory : Bool := false
  hasSubcategory : Bool := false
  hasStatus : Bool := false
  hasResolution : Bool := false
  hasPriority : Bool := false
  hasAffectedUser : Bool := false
  hasCreatedAt : Bool := false
  hasResolvedAt : Bool := false
  hasUpdatedAt : Bool := false
  hasResolutionTimeHours : Bool := false
  hasCreatedHour : Bool := false
  hasCreatedDay : Bool := false
  hasCreatedDate : Bool := false
  rows : List Ticket := []
deriving DecidableEq

/-! ## `RCAAnalyzer.__init__` / `_preprocess_data` (lines 23-51)

`__init__` stores the caller's DataFrame by reference
(`self.ticket_data = ticket_data`, no copy), so every in-place column
assignment of `_preprocess_data` is visible to the caller. The function
below returns the state of the caller's DataFrame after construction.
The `pd.to_datetime(..., errors='coerce')` conversions act on values this
model already holds in parsed form, so they leave row timestamps unchanged;
the visible effect is the three derived columns added when `created_at`
exists. -/

/-- Hour-of-day of an epoch-second timestamp (`Series.dt.hour`). -/
def hourOfTs (t : Int) : Nat := ((t % 86400) / 3600).toNat

/-- Weekday name of an epoch-second timestamp (`Series.dt.day_name()`);
day 0 (1970-01-01) was a Thursday. -/
def dayNameOfTs (t : Int) : String :=
  ["Thursday", "Friday", "Saturday", "Sunday", "Monday", "Tuesday",
   "Wednesday"].getD ((Int.fdiv t 86400) % 7).toNat ""

/-- Calendar date (`Series.dt.date`) as an epoch-day number. -/
def dateOfTs (t : Int) : Int := Int.fdiv t 86400

/-- Derived-column augmentation of one row. -/
def augmentTicket (t : Ticket) : Ticket :=
  { t with
    createdHour := t.createdAt.map hourOfTs
    createdDay := t.createdAt.map dayNameOfTs
    createdDate := t.createdAt.map dateOfTs }

/-- The caller's DataFrame after `RCAAnalyzer.__init__` ran on it. -/
def rcaInit (s : Store) : Store :=
  if s.hasCreatedAt then
    { s with
      hasCreatedHour := true
      hasCreatedDay := true
      hasCreatedDate := true
      rows := s.rows.map augmentTicket }
  else s

/-! ## `identify_related_tickets` (lines 53-118) -/

/-- Keyword-mode membership test for one ticket: the OR-accumulated
`str.contains(term, case=False, na=False)` masks over `short_description`
and `description` (lines 85-93); a missing value never matches. -/
def keywordHit (s : Store) (terms : List String) (t : Ticket) : Bool :=
  (s.hasShortDescription &&
    terms.any (fun kw =>
      match t.shortDescription with
      | some v => containsCI kw v
      | none => false)) ||
  (s.hasDescription &&
    terms.any (fun kw =>
      match t.description with
      | some v => containsCI kw v
      | none => false))

/-- Time-window membership test (lines 98-106): `created_at` within the
closed interval around the anchor; `NaT` fails both comparisons. -/
def windowHit (anchor : Int) (w : Nat) (t : Ticket) : Bool :=
  match t.createdAt with
  | some c => decide (anchor - (w : Int) * 86400 ≤ c) && decide (c ≤ anchor + (w : Int) * 86400)
  | none => false

/-- The related-ticket subset (`identify_related_tickets`); row order of the
store is preserved, and the result is a copy. -/
def identifyRelatedRows (s : Store) (text : String) (w : Nat) : List Ticket :=
  match extractIncidentDate text with
  | some anchor =>
    if s.hasCreatedAt then s.rows.filter (windowHit anchor w) else s.rows
  | none =>
    s.rows.filter (keywordHit s (extractKeyTerms text))

/-! ## `analyze_incident_timeline` (lines 139-189) -/

/-- A timeline event. `timestamp = none` is `NaT`; a `none` in `ticketId` or
`description` is a float `NaN` value read from a present column (the code
stores the raw value, without `str()`). -/
structure TimelineEvent where
  timestamp : Option Int
  eventType : String
  ticketId : Option String
  description : Option String
deriving DecidableEq

/-- Model of `ticket.get('number', '')`. -/
def ticketIdOf (s : Store) (t : Ticket) : Option String :=
  if s.hasNumber then t.number else some ""

/-- Strict comparison of sort keys: `NaT` compares false against
everything, exactly as pandas `NaT < x` / `x < NaT` do. -/
def tsLt (a b : Option Int) : Bool :=
  match a, b with
  | some x, some y => decide (x < y)
  | _, _ => false

/-- The comparison a stable sort derives from the strict key order:
`a` may stay before `b` iff `b`'s key is not strictly smaller. -/
def evLe (a b : TimelineEvent) : Bool := !(tsLt b.timestamp a.timestamp)

/-- The formal reading of "sorted non-decreasing by timestamp": no event is
followed (anywhere later, not merely adjacently) by one with a strictly
smaller timestamp. With `NaT` keys the adjacent-pairs check would be
vacuous around the `NaT`, so the all-pairs form is the faithful reading. -/
def timelineSortedB : List TimelineEvent → Bool
  | [] => true
  | a :: r => r.all (fun b => evLe a b) && timelineSortedB r

/-- Emission order of the raw events (before sorting): all `Ticket Created`
events in row order, then all `Ticket Resolved`, then all `Ticket Updated`.
A `Created` event is emitted for every row — without a missing-value check,
so its timestamp may be `NaT`; `Resolved`/`Updated` are guarded by
`pd.notna`. -/
def rawTimelineEvents (s : Store) : List TimelineEvent :=
  (if s.hasCreatedAt then
    s.rows.map (fun t =>
      { timestamp := t.createdAt
        eventType := "Ticket Created"
        ticketId := ticketIdOf s t
        description := if s.hasShortDescription then t.shortDescription else some "N/A" })
   else []) ++
  (if s.hasResolvedAt then
    (s.rows.filter (fun t => t.resolvedAt.isSome)).map (fun t =>
      { timestamp := t.resolvedAt
        eventType := "Ticket Resolved"
        ticketId := ticketIdOf s t
        description := some ("Resolution: " ++
          (if s.hasResolution then strOfOpt t.resolution else "N/A")) })
   else []) ++
  (if s.hasUpdatedAt then
    (s.rows.filter (fun t => t.updatedAt.isSome)).map (fun t =>
      { timestamp := t.updatedAt
        eventType := "Ticket Updated"
        ticketId := ticketIdOf s t
        description := some ("Status: " ++
          (if s.hasStatus then strOfOpt t.status else "N/A")) })
   else [])

/-- Model of `analyze_incident_timeline`: merge and stable-sort by timestamp. -/
def analyzeTimeline (s : Store) : List TimelineEvent :=
  sSort evLe (rawTimelineEvents s)

/-! ## `_analyze_time_patterns` (lines 210-234) -/

structure TimePatterns where
  peakHours : Option (List (Nat × Nat))
  dayDistribution : Option (List (String × Nat))
deriving DecidableEq

/-- Model of the `created_hour` value counts (missing hours dropped). -/
def hourCounts (s : Store) : List (Nat × Nat) :=
  valueCounts (s.rows.filterMap (fun t => t.createdHour))

/-- Mean of the per-hour counts. -/
def hourMean (s : Store) : ℚ :=
  (((hourCounts s).map (fun p => (p.2 : ℚ))).sum) / ((hourCounts s).length : ℚ)

/-- Sample variance (`Series.std()` squared, `ddof = 1`) of the per-hour
counts. -/
def hourVar (s : Store) : ℚ :=
  (((hourCounts s).map (fun p => ((p.2 : ℚ) - hourMean s) ^ 2)).sum) /
    (((hourCounts s).length : ℚ) - 1)

/-- The Boolean the code's `count > mean + std` evaluates to. For fewer
than two distinct hours the sample std is `NaN` and every comparison with
it is false; otherwise `count > mean + sqrt(var)` is decided exactly by
sign and squaring (`bridgeSqrt` below proves this equivalence). -/
def peakTest (s : Store) (c : Nat) : Bool :=
  if (hourCounts s).length < 2 then false
  else
    decide (0 < (c : ℚ) - hourMean s) &&
    decide (hourVar s < ((c : ℚ) - hourMean s) ^ 2)

/-- The hours retained by `hour_counts[hour_counts > mean + std]`. -/
def peakList (s : Store) : List (Nat × Nat) :=
  (hourCounts s).filter (fun p => peakTest s p.2)

/-- Model of `_analyze_time_patterns`: the `peak_hours` entry exists only when the
filtered dictionary is non-empty; `day_distribution` whenever the
`created_day` column exists. -/
def analyzeTimePatterns (s : Store) : TimePatterns :=
  { peakHours :=
      if s.hasCreatedHour then
        if (peakList s).isEmpty then none else some (peakList s)
      else none
    dayDistribution :=
      if s.hasCreatedDay then
        some (valueCounts (s.rows.filterMap (fun t => t.createdDay)))
      else none }

/-! ## `_extract_system_components` (lines 236-272) -/

/-- The four component regex families of lines 253-258, expanded to their
literal alternatives (each is an alternation of plain words; `re.findall`
scans left to right trying alternatives in pattern order). -/
def componentPatterns : List (List String) :=
  [["server", "database", "network", "application", "interface", "api",
    "service", "cluster"],
   ["authentication", "authorization", "login", "access"],
   ["timeout", "latency", "slow", "performance"],
   ["error", "exception", "failure", "crash"]]

/-- Model of `re.findall` for an alternation of literal words, case-insensitively:
at each position the first matching alternative is emitted and the scan
resumes after it (non-overlapping matches). The input is the lower-cased
text; the emitted literal is what `str.capitalize` normalises anyway. -/
def findAllCI (lits : List String) : List Char → List String
  | [] => []
  | c :: cs =>
    match lits.find? (fun p => p.toList.isPrefixOf (c :: cs)) with
    | some p => p :: findAllCI lits (cs.drop (p.length - 1))
    | none => findAllCI lits cs
termination_by cs => cs.length
decreasing_by
  · simp only [List.length_drop, List.length_cons]
    omega
  · simp only [List.length_cons]
    omega

/-- The insertion-ordered component tally, before sorting: category
value counts (prefixed), subcategory value counts (prefixed), then one bump
per regex occurrence in each description. -/
def componentsAssoc (s : Store) : List (String × Nat) :=
  let c1 :=
    if s.hasCategory then
      (valueCounts (s.rows.filterMap (fun t => t.category))).foldl
        (fun acc p => bump acc ("Category: " ++ p.1) p.2) []
    else []
  let c2 :=
    if s.hasSubcategory then
      (valueCounts (s.rows.filterMap (fun t => t.subcategory))).foldl
        (fun acc p => bump acc ("Subcategory: " ++ p.1) p.2) c1
    else c1
  if s.hasDescription then
    s.rows.foldl
      (fun acc t =>
        componentPatterns.foldl
          (fun acc pat =>
            (findAllCI pat (lowerList (strOfOpt t.description))).foldl
              (fun acc m => bump acc (capitalizeStr m) 1) acc)
          acc)
      c2
  else c2

/-- Model of `_extract_system_components`: sort by count descending (Python's
`sorted` is stable, so ties keep insertion order) and keep the top 10. -/
def systemComponents (s : Store) : List (String × Nat) :=
  (sSort (fun a b => b.2 ≤ a.2) (componentsAssoc s)).take 10

/-! ## `_extract_common_errors` (lines 274-298) -/

/-- The seven error categories with their regexes expanded to literal
alternatives. -/
def errorPatterns : List (String × List String) :=
  [("timeouts", ["timeout", "time out", "timed out"]),
   ("access_issues", ["access denied", "unauthorized", "forbidden", "permission"]),
   ("performance", ["slow", "performance", "latency", "delay"]),
   ("data_issues", ["data error", "data issue", "data problem", "data corrupt",
                    "inconsistent data"]),
   ("crashes", ["crash", "abort", "terminate", "stop responding"]),
   ("connectivity", ["connection issue", "connection problem", "connection error",
                     "connectivity issue", "connectivity problem",
                     "connectivity error", "unable to connect"]),
   ("authentication", ["login failed", "login issue", "login problem", "login error",
                       "authentication failed", "authentication issue",
                       "authentication problem", "authentication error",
                       "auth failed", "auth issue", "auth problem", "auth error"])]

/-- One inner iteration of `_extract_common_errors`: try every category
pattern against one text and bump the matching ones. -/
def bumpAllErr (errs : List (String × Nat)) (text : String) : List (String × Nat) :=
  errorPatterns.foldl
    (fun acc p => if matchesAny p.2 text then bump acc p.1 1 else acc)
    errs

/-- Iterate one text field over all tickets. -/
def processErrField (errs : List (String × Nat)) (texts : List String) :
    List (String × Nat) :=
  texts.foldl bumpAllErr errs

/-- The `str(ticket.get(field, ''))` values of one text column: skipped
entirely when the column is absent; a missing value prints as `"nan"`. -/
def fieldTexts (present : Bool) (vals : List (Option String)) : List String :=
  if present then vals.map strOfOpt else []

/-- Model of `_extract_common_errors`: a ticket is counted once per text field it
matches in (the field loop is outermost, so a ticket matching in both
`short_description` and `description` is counted twice). -/
def commonErrors (s : Store) : List (String × Nat) :=
  processErrField
    (processErrField []
      (fieldTexts s.hasShortDescription (s.rows.map (fun t => t.shortDescription))))
    (fieldTexts s.hasDescription (s.rows.map (fun t => t.description)))

/-! ## `_identify_related_changes` (lines 300-338) -/

/-- One change-evidence record; `evidence = none` models the
category-detector entries, which carry no `evidence` key. -/
structure ChangeRec where
  ticketId : Option String
  description : Option String
  date : Option Int
  evidence : Option String
deriving DecidableEq

/-- The three "recent change" phrasing regexes of lines 318-322, expanded
to literal alternatives in the order the engine tries them (at a given
position at most one alternative of each pattern can match, so list order
only mirrors the engine's scan). -/
def changePatterns : List (List String) :=
  [["after upgrade", "after update", "after patch", "after deployment",
    "after release", "after change",
    "following upgrade", "following update", "following patch",
    "following deployment", "following release", "following change",
    "recent upgrade", "recent update", "recent patch", "recent deployment",
    "recent release", "recent change"],
   ["implemented on", "implemented at", "installed on", "installed at",
    "deployed on", "deployed at", "changed on", "changed at"],
   ["new version", "release", "build", "deployment"]]

/-- Model of `re.search` under `re.IGNORECASE` returning `match.group(0)`: the
original-case slice of the leftmost match of any alternative. -/
def searchFirstCI (lits : List String) : List Char → Option String
  | [] => none
  | c :: cs =>
    match lits.find? (fun p => (lowerList p).isPrefixOf ((c :: cs).map Char.toLower)) with
    | some p => some (String.mk ((c :: cs).take p.length))
    | none => searchFirstCI lits cs

/-- Model of `ticket.get('short_description', 'N/A')` for change records. -/
def changeDescOf (s : Store) (t : Ticket) : Option String :=
  if s.hasShortDescription then t.shortDescription else some "N/A"

/-- Model of `ticket.get('created_at', None)`. -/
def changeDateOf (s : Store) (t : Ticket) : Option Int :=
  if s.hasCreatedAt then t.createdAt else none

/-- Model of `_identify_related_changes`: the category detector first (tickets whose
`category` contains "change", case-insensitively, missing never matching),
then per ticket one record per description pattern that fires; records are
deliberately not deduplicated. -/
def relatedChanges (s : Store) : List ChangeRec :=
  (if s.hasCategory then
    (s.rows.filter (fun t =>
      match t.category with
      | some v => containsCI "change" v
      | none => false)).map (fun t =>
        { ticketId := ticketIdOf s t
          description := changeDescOf s t
          date := changeDateOf s t
          evidence := none })
   else []) ++
  (if s.hasDescription then
    s.rows.foldr
      (fun t acc =>
        (changePatterns.filterMap (fun pat =>
          (searchFirstCI pat (strOfOpt t.description).toList).map (fun ev =>
            { ticketId := ticketIdOf s t
              description := changeDescOf s t
              date := changeDateOf s t
              evidence := some ev }))) ++ acc)
      []
   else [])

/-! ## `analyze_impact` (lines 340-377) -/

structure Impact where
  ticketCount : Nat
  priorityDistribution : Option (List (String × Nat))
  highPriorityPercentage : Option ℚ
  affectedUserCount : Option Nat
  avgResolutionTime : Option ℚ
  maxResolutionTime : Option ℚ
deriving DecidableEq

/-- Python's `round(x, 2)` (round half to even) on an exact rational. -/
def round2 (q : ℚ) : ℚ :=
  let x := q * 100
  let f : ℤ := ⌊x⌋
  let r : ℚ := x - (f : ℚ)
  let n : ℤ :=
    if r < 1 / 2 then f
    else if 1 / 2 < r then f + 1
    else if f % 2 = 0 then f else f + 1
  (n : ℚ) / 100

/-- The fixed high-priority set (string-encoded priorities). -/
def isHighPriority (p : Option String) : Bool :=
  match p with
  | some v => v = "1" || v = "2" || v = "Critical" || v = "High"
  | none => false

/-- Mean of a non-empty rational list (0 is never used: callers guard). -/
def meanQ (l : List ℚ) : ℚ := l.sum / (l.length : ℚ)

/-- Maximum of a rational list (`Series.max()` on a non-empty series). -/
def maxQ : List ℚ → ℚ
  | [] => 0
  | a :: r => r.foldl max a

/-- Model of `analyze_impact`. -/
def analyzeImpact (s : Store) : Impact :=
  let n := s.rows.length
  let resTimes := s.rows.filterMap (fun t => t.resolutionTimeHours)
  { ticketCount := n
    priorityDistribution :=
      if s.hasPriority then some (valueCounts (s.rows.filterMap (fun t => t.priority)))
      else none
    highPriorityPercentage :=
      if s.hasPriority then
        some (round2 (((s.rows.filter (fun t => isHighPriority t.priority)).length : ℚ)
          / (n : ℚ) * 100))
      else none
    affectedUserCount :=
      if s.hasAffectedUser then
        some ((s.rows.filterMap (fun t => t.affectedUser)).dedup.length)
      else none
    avgResolutionTime :=
      if s.hasResolutionTimeHours && !resTimes.isEmpty then some (meanQ resTimes)
      else none
    maxResolutionTime :=
      if s.hasResolutionTimeHours && !resTimes.isEmpty then some (maxQ resTimes)
      else none }

/-! ## `generate_rca_report` (lines 379-418) -/

structure Factors where
  timePatterns : TimePatterns
  systemComponents : List (String × Nat)
  commonErrors : List (String × Nat)
  relatedChanges : List ChangeRec
deriving DecidableEq

/-- The sentinel message of the insufficient-data report. -/
def insufficientMsg : String :=
  "No related tickets found for this incident. Please provide more details or check the data."

/-- The RCA report. The `insufficientData` constructor is the two-key
sentinel dictionary (status plus message) and nothing else; `report` is the
six-key full report of lines 409-416. -/
inductive RCAReport where
  | insufficientData (message : String)
  | report (incidentDescription : String) (relatedTickets : Nat)
      (timeline : List TimelineEvent) (contributingFactors : Factors)
      (impact : Impact) (sampleTickets : List Ticket)
deriving DecidableEq

/-- The related subset as a DataFrame: same columns, filtered rows. -/
def relatedStore (s : Store) (related : List Ticket) : Store :=
  { s with rows := related }

/-- Model of `identify_contributing_factors` (lines 191-208). -/
def contributingFactors (s : Store) : Factors :=
  { timePatterns := analyzeTimePatterns s
    systemComponents := systemComponents s
    commonErrors := commonErrors s
    relatedChanges := relatedChanges s }

/-- Model of `generate_rca_report`: preprocessing happened at construction; related
tickets are located with the default 3-day window; an empty related set
short-circuits to the sentinel. -/
def generateRCAReport (s : Store) (incidentDescription : String) : RCAReport :=
  let s' := rcaInit s
  let related := identifyRelatedRows s' incidentDescription 3
  if related.isEmpty then
    .insufficientData insufficientMsg
  else
    let rs := relatedStore s' related
    .report incidentDescription related.length (analyzeTimeline rs)
      (contributingFactors rs) (analyzeImpact rs) (related.take 5)

/-! ## Recommendations of `format_rca_report_for_display` (lines 556-573) -/

def baseRecommendations : List String :=
  ["**Review Recent Changes**: Investigate any recent changes or deployments that coincide with the incident timeframe.",
   "**Monitor System Components**: Implement enhanced monitoring for the affected system components.",
   "**Resource Allocation**: Evaluate resource allocation during peak hours to prevent similar incidents."]

def timeoutRecommendation : String :=
  "**Connection Timeout Investigation**: Review connection timeout settings and network stability."

def accessRecommendation : String :=
  "**Access Control Review**: Audit authentication and authorization mechanisms."

/-- The guard `if errors and k in errors and errors[k] > 0`. -/
def errCondition (errors : List (String × Nat)) (k : String) : Bool :=
  !errors.isEmpty &&
    (match errors.lookup k with
     | some c => decide (0 < c)
     | none => false)

/-- The recommendation list the formatted report renders, in order. -/
def buildRecommendations (errors : List (String × Nat)) : List String :=
  baseRecommendations ++
  (if errCondition errors "timeouts" then [timeoutRecommendation] else []) ++
  (if errCondition errors "access_issues" then [accessRecommendation] else [])

/-! ## Model of the resolution-time computation of `preprocess_data`
(`utils/data_processor.py`, lines 100-107)

A raw row is the pair of parse results of `created_at` and `resolved_at`
(`pd.to_datetime(..., errors='coerce')`: unparseable becomes missing). The
`resolution_time_hours` column is created only when at least one row has
both timestamps (`valid_dates.any()`); rows outside the mask keep a missing
value. -/

def resolutionColumn (rows : List (Option Int × Option Int)) :
    Option (List (Option ℚ)) :=
  if rows.any (fun p => p.1.isSome && p.2.isSome) then
    some (rows.map (fun p =>
      match p.1, p.2 with
      | some c, some r => some (((r - c : Int) : ℚ) / 3600)
      | _, _ => none))
  else none

/-- The `resolution_time_hours` value of row `i` (`none` when the column
does not exist or the row's value is missing). -/
def rowResolution (rows : List (Option Int × Option Int)) (i : Nat) : Option ℚ :=
  match resolutionColumn rows with
  | none => none
  | some col => (col[i]?).join

/-! ## Helper lemmas shared between claims -/

theorem identifyRelated_nil (s : Store) (text : String) (w : Nat)
    (h : s.rows = []) : identifyRelatedRows s text w = [] := by
  unfold identifyRelatedRows
  cases hm : extractIncidentDate text <;> simp [h]

theorem rcaInit_rows_nil (s : Store) (h : s.rows = []) : (rcaInit s).rows = [] := by
  unfold rcaInit
  split <;> simp [h]

theorem report_of_empty_related (s : Store) (text : String)
    (h : identifyRelatedRows (rcaInit s) text 3 = []) :
    generateRCAReport s text = .insufficientData insufficientMsg := by
  unfold generateRCAReport
  simp [h]

/-- The function `findDateMatch` only reports matches that occur at some position. -/
theorem findDateMatch_mem_tails (cs : List Char) (g : String × String × String)
    (h : findDateMatch cs = some g) :
    ∃ t ∈ cs.tails, matchDateAt t = some g := by
  induction cs with
  | nil => simp [findDateMatch] at h
  | cons c cs ih =>
    rw [findDateMatch] at h
    cases hm : matchDateAt (c :: cs) with
    | some g' =>
      rw [hm] at h
      simp only [Option.orElse] at h
      have hg : g' = g := Option.some.inj h
      exact ⟨c :: cs, by simp, by rw [hm, hg]⟩
    | none =>
      rw [hm] at h
      simp only [Option.orElse] at h
      obtain ⟨t, ht, hmt⟩ := ih h
      exact ⟨t, by simp [List.tails]; right; simpa using ht, hmt⟩

/-- A `Pairwise`-ordered event list passes the all-pairs sortedness check. -/
theorem timelineSortedB_of_pairwise :
    ∀ l : List TimelineEvent, l.Pairwise (fun a b => evLe a b = true) →
      timelineSortedB l = true
  | [], _ => rfl
  | a :: r, h => by
    rcases List.pairwise_cons.mp h with ⟨ha, hr⟩
    rw [timelineSortedB, Bool.and_eq_true]
    exact ⟨List.all_eq_true.mpr (fun b hb => ha b hb),
      timelineSortedB_of_pairwise r hr⟩

/-! # The claims -/

/-! ## Claim C1 -/

/-- Claim C1 (confirmed). For every ticket store and incident description, if
the related-ticket set identified for the description is empty, then
`generate_rca_report` returns exactly the two-key sentinel
(status `insufficient_data` plus the fixed message, nothing else — the
`insufficientData` constructor carries nothing but the message) and no
further stage runs; in particular this holds for an empty ticket store and
any incident text. -/
theorem claim1_insufficient_data (s : Store) (text : String) :
    (identifyRelatedRows (rcaInit s) text 3 = [] →
      generateRCAReport s text = .insufficientData insufficientMsg) ∧
    (s.rows = [] →
      generateRCAReport s text = .insufficientData insufficientMsg) := by
  refine ⟨report_of_empty_related s text, fun h => ?_⟩
  exact report_of_empty_related s text
    (identifyRelated_nil _ text 3 (rcaInit_rows_nil s h))

/-- Witness for C1: the empty store with a concrete incident text. -/
theorem claim1_witness :
    generateRCAReport { rows := [] : Store } "login service outage this morning" =
      .insufficientData insufficientMsg :=
  (claim1_insufficient_data { rows := [] : Store }
    "login service outage this morning").2 rfl

/-! ## Claim C2 -/

/-- A store exhibiting the analyzer's in-place mutation: it has a
`created_at` column and none of the derived columns. -/
def c2Store : Store :=
  { hasCreatedAt := true, rows := [{ createdAt := some 3600 }] }

/-- Claim C2 counterexample. The claim says the pipeline leaves the caller's
ticket store unchanged. It does not: `__init__` stores the caller's
DataFrame by reference and `_preprocess_data` assigns the derived columns
in place, so after constructing the analyzer the caller's store has gained
the `created_hour`/`created_day`/`created_date` columns. -/
theorem claim2_counterexample : rcaInit c2Store ≠ c2Store := by decide

/-- Claim C2 (corrected). Whenever the caller's store has a `created_at`
column, constructing the analyzer mutates it in place: the caller's
DataFrame afterwards carries the three derived columns, with per-row values
computed from `created_at`; if it did not already have the `created_hour`
column it is observably different from what the caller passed in. (The
stages after construction operate on copies of the filtered subset and add
nothing further; absent `created_at`, the store is untouched.) -/
theorem claim2_amended (s : Store) (h : s.hasCreatedAt = true) :
    rcaInit s = { s with
      hasCreatedHour := true
      hasCreatedDay := true
      hasCreatedDate := true
      rows := s.rows.map augmentTicket } ∧
    (s.hasCreatedHour = false → rcaInit s ≠ s) := by
  constructor
  · simp [rcaInit, h]
  · intro h2 hcontra
    have hflag := congrArg Store.hasCreatedHour hcontra
    rw [rcaInit, if_pos h] at hflag
    simp only at hflag
    rw [h2] at hflag
    exact Bool.true_eq_false.mp hflag

/-- Witness for C2 on a concrete store with a `created_at` column. -/
theorem claim2_witness :
    rcaInit { hasCreatedAt := true, hasNumber := true,
              rows := [{ number := some "W1", createdAt := some 7200 }] : Store } ≠
    { hasCreatedAt := true, hasNumber := true,
      rows := [{ number := some "W1", createdAt := some 7200 }] : Store } :=
  (claim2_amended _ rfl).2 rfl

/-! ## Claim C5 -/

/-- The Scenario A row: `created_at = 2024-03-01T09:00`,
`resolved_at = 2024-03-01T13:00`, in epoch seconds. -/
def scenarioARows : List (Option Int × Option Int) :=
  [(some (19783 * 86400 + 9 * 3600), some (19783 * 86400 + 13 * 3600))]

/-- Claim C5 (confirmed). A row of the normalized store has a
`resolution_time_hours` value iff both of its timestamps parsed, and then
the value is exactly their difference in hours (never a defaulted zero);
Scenario A yields 4.0 hours. -/
theorem claim5_resolution_time :
    (∀ (rows : List (Option Int × Option Int)) (i : Nat) (h : ℚ),
      rowResolution rows i = some h ↔
        ∃ c r : Int, rows[i]? = some (some c, some r) ∧
          h = ((r - c : Int) : ℚ) / 3600) ∧
    rowResolution scenarioARows 0 = some 4 := by
  constructor
  · intro rows i h
    unfold rowResolution resolutionColumn
    by_cases hany : rows.any (fun p => p.1.isSome && p.2.isSome)
    · rw [if_pos hany]
      simp only [List.getElem?_map]
      cases hrow : rows[i]? with
      | none => simp
      | some p =>
        obtain ⟨pc, pr⟩ := p
        cases pc with
        | none => simp
        | some c =>
          cases pr with
          | none => simp
          | some r =>
            simp only [Option.map_some', Option.join, Option.some_bind, id_eq,
              Option.some.injEq, Prod.mk.injEq]
            constructor
            · intro he
              exact ⟨c, r, ⟨rfl, rfl⟩, he.symm⟩
            · rintro ⟨c', r', ⟨hc', hr'⟩, he⟩
              rw [← hc', ← hr'] at he
              exact he.symm
    · rw [if_neg hany]
      constructor
      · intro he
        exact absurd he (by simp)
      · rintro ⟨c, r, hrow, _⟩
        have hmem : ((some c, some r) : Option Int × Option Int) ∈ rows :=
          List.getElem?_mem hrow
        have hany' : rows.any (fun p => p.1.isSome && p.2.isSome) = false :=
          Bool.eq_false_iff.mpr hany
        have := List.any_eq_false.mp hany' _ hmem
        simp at this
  · show rowResolution scenarioARows 0 = some 4
    have hcol : resolutionColumn scenarioARows =
        some [some (((14400 : Int) : ℚ) / 3600)] := by
      simp [resolutionColumn, scenarioARows]
      norm_num
    rw [rowResolution, hcol]
    simp only [List.getElem?_cons_zero, Option.join, Option.some_bind, id_eq,
      Option.some.injEq]
    norm_num

/-! ## Claim C7 -/

/-- Scenario B tickets: created 2024-02-28 and 2024-03-05 (midnight). -/
def bTicket1 : Ticket := { number := some "T1", createdAt := some (19781 * 86400) }
def bTicket2 : Ticket := { number := some "T2", createdAt := some (19787 * 86400) }
def bStore : Store :=
  { hasNumber := true, hasCreatedAt := true, rows := [bTicket1, bTicket2] }

/-- Claim C7 (confirmed). In time-window mode with anchor `A` and window `w`
days, a ticket of a store with a `created_at` column is selected iff its
`created_at` is present and lies in the closed interval
`[A - w days, A + w days]`; Scenario B (window 3 around 2024-03-01) keeps
the 2024-02-28 ticket and drops the 2024-03-05 one. -/
theorem claim7_time_window (s : Store) (text : String) (w : Nat) (anchor : Int)
    (hA : extractIncidentDate text = some anchor) (hc : s.hasCreatedAt = true) :
    (∀ t : Ticket, t ∈ identifyRelatedRows s text w ↔
      t ∈ s.rows ∧ ∃ c : Int, t.createdAt = some c ∧
        anchor - (w : Int) * 86400 ≤ c ∧ c ≤ anchor + (w : Int) * 86400) ∧
    identifyRelatedRows (rcaInit bStore) "Outage on 3/1/2024 affecting login" 3 =
      [augmentTicket bTicket1] := by
  constructor
  · intro t
    unfold identifyRelatedRows
    rw [hA]
    simp only [hc, if_true, List.mem_filter, windowHit]
    cases hca : t.createdAt with
    | none => simp
    | some c =>
      simp only [decide_eq_true_eq, Bool.and_eq_true]
      constructor
      · rintro ⟨hm, h1, h2⟩
        exact ⟨hm, c, rfl, h1, h2⟩
      · rintro ⟨hm, c', hc', h1, h2⟩
        cases Option.some.inj hc'
        exact ⟨hm, h1, h2⟩
  · decide

/-- Witness for C7: the Scenario B anchor and store. -/
theorem claim7_witness :
    augmentTicket bTicket1 ∈
      identifyRelatedRows (rcaInit bStore) "Outage on 3/1/2024 affecting login" 3 := by
  have h := (claim7_time_window (rcaInit bStore)
    "Outage on 3/1/2024 affecting login" 3 (19783 * 86400) (by decide) (by decide)).1
      (augmentTicket bTicket1)
  exact h.mpr (by decide)

/-! ## Claim C10 -/

/-- Claim C10 (confirmed). In keyword mode a ticket with both text fields
missing is never selected (missing text never matches); and if every word
of the incident text is a stopword or shorter than four characters, no key
term is extracted, the related set of the full pipeline is empty, and
`generate_rca_report` returns the insufficient-data sentinel. -/
theorem claim10_keyword_missing (s : Store) (text : String) (w : Nat)
    (hkw : usesTimeWindowMode text = false) :
    (∀ t : Ticket, t.shortDescription = none → t.description = none →
      t ∉ identifyRelatedRows s text w) ∧
    ((∀ wd ∈ tokenizeWords text, wd ∈ commonWords ∨ wd.length < 4) →
      identifyRelatedRows (rcaInit s) text 3 = [] ∧
      generateRCAReport s text = .insufficientData insufficientMsg) := by
  have hdate : extractIncidentDate text = none := by
    unfold usesTimeWindowMode at hkw
    exact Option.not_isSome_iff_eq_none.mp (by simp [hkw])
  constructor
  · intro t hsd hd hmem
    unfold identifyRelatedRows at hmem
    rw [hdate] at hmem
    have := (List.mem_filter.mp hmem).2
    rw [keywordHit, hsd, hd] at this
    simp at this
  · intro hall
    have hterms : extractKeyTerms text = [] := by
      have hfil : filteredTerms text = [] := by
        unfold filteredTerms
        rw [List.filter_eq_nil_iff]
        intro wd hwd
        rcases hall wd hwd with hstop | hshort
        · simp [hstop]
        · simp [Nat.not_le.mpr hshort]
      unfold extractKeyTerms
      rw [hfil]
      simp [valueCounts, uniqueFirst, sSort]
    have hrel : identifyRelatedRows (rcaInit s) text 3 = [] := by
      unfold identifyRelatedRows
      rw [hdate, hterms, List.filter_eq_nil_iff]
      intro t _
      simp [keywordHit]
    exact ⟨hrel, report_of_empty_related s text hrel⟩

/-- Witness for C10: a store whose only ticket has both text fields missing
and a text made of stopwords and short words. -/
theorem claim10_witness :
    ({ shortDescription := none, description := none : Ticket } ∉
      identifyRelatedRows
        { hasShortDescription := true, hasDescription := true,
          rows := [{ shortDescription := none, description := none }] : Store }
        "the on is a to it" 3) ∧
    generateRCAReport
        { hasShortDescription := true, hasDescription := true,
          rows := [{ shortDescription := none, description := none }] : Store }
        "the on is a to it" = .insufficientData insufficientMsg := by
  have h := claim10_keyword_missing
    { hasShortDescription := true, hasDescription := true,
      rows := [{ shortDescription := none, description := none }] : Store }
    "the on is a to it" 3 (by decide)
  exact ⟨h.1 _ rfl rfl, (h.2 (by decide)).2⟩

/-! ## Claim C4 -/

/-- A description that contains a well-formed date (3/1/2024) preceded by a
date-shaped but invalid token: the regex finds the invalid token first, its
parse fails, and the engine falls back to keyword mode without trying the
later match. -/
def c4Text : String := "99-99-9999 outage then 3/1/2024 login"

/-- Claim C4 counterexample. The claim says every description containing a
well-formed date selects time-window mode. `c4Text` contains the
well-formed date 3/1/2024, yet the locator operates in keyword mode,
because `re.search` returns only the first pattern match (the invalid
99-99-9999) and its failed parse is never retried on later matches. -/
theorem claim4_counterexample :
    containsWellFormedDate c4Text = true ∧ usesTimeWindowMode c4Text = false := by
  constructor
  · decide
  · decide

/-- Claim C4 (corrected). Mode selection is decided by the *first* match of
the date pattern alone: the locator operates in time-window mode iff the
first date-pattern match in the description parses as a valid calendar date
(month/day/year order, two-digit years mapped to the 2000s). A description
containing no well-formed date at any position never selects time-window
mode. Mode selection remains a pure function of the description text (in
this embedding the locator is a function, so repeated calls with identical
input trivially yield the same mode and subset). -/
theorem claim4_amended (text : String) :
    (usesTimeWindowMode text = true ↔
      ∃ g, findDateMatch text.toList = some g ∧ (parseGroups g).isSome) ∧
    (containsWellFormedDate text = false → usesTimeWindowMode text = false) := by
  have hiff : usesTimeWindowMode text = true ↔
      ∃ g, findDateMatch text.toList = some g ∧ (parseGroups g).isSome := by
    unfold usesTimeWindowMode extractIncidentDate
    cases hm : findDateMatch text.toList with
    | none => simp
    | some g => simp [hm]
  refine ⟨hiff, fun hno => ?_⟩
  by_contra hmode
  have hsome := hiff.mp (eq_true_of_ne_false hmode)
  obtain ⟨g, hfind, hparse⟩ := hsome
  obtain ⟨t, htmem, htm⟩ := findDateMatch_mem_tails _ g hfind
  have : containsWellFormedDate text = true := by
    unfold containsWellFormedDate
    rw [List.any_eq_true]
    exact ⟨t, htmem, by rw [htm]; simpa using hparse⟩
  rw [this] at hno
  exact Bool.true_eq_false.mp hno

/-- Witness for C4: a dateless text is in keyword mode. -/
theorem claim4_witness : usesTimeWindowMode "database outage all morning" = false :=
  (claim4_amended "database outage all morning").2 (by decide)

/-! ## Claim C8 -/

/-- Claim C8 (confirmed). The `system_components` result has at most 10
entries, counts are non-increasing left to right (all pairs, not just
adjacent ones), and entries with equal count appear in the first-seen
(insertion) order of the labels: filtering any count class out of the
result yields a prefix of the same filter over the insertion-ordered tally.
-/
theorem claim8_system_components (s : Store) :
    (systemComponents s).length ≤ 10 ∧
    (systemComponents s).Pairwise (fun a b => b.2 ≤ a.2) ∧
    (∀ c : Nat, (systemComponents s).filter (fun p => p.2 = c) <+:
      (componentsAssoc s).filter (fun p => p.2 = c)) := by
  refine ⟨?_, ?_, ?_⟩
  · exact (List.length_take_le _ _)
  · have hp := pairwise_sSort (fun a b : String × Nat => decide (b.2 ≤ a.2))
      (componentsAssoc s)
      (fun x _ y _ => by
        rcases Nat.le_total y.2 x.2 with h | h
        · exact Or.inl (by simpa using h)
        · exact Or.inr (by simpa using h))
      (fun x _ y _ z _ hxy hyz => by
        simp only [decide_eq_true_eq] at hxy hyz ⊢
        exact le_trans hyz hxy)
    have hp' := List.Pairwise.sublist (List.take_sublist 10 _) hp
    exact hp'.imp (fun h => by simpa using h)
  · intro c
    have hstable := filter_sSort (fun a b : String × Nat => decide (b.2 ≤ a.2))
      (fun p => p.2 = c) (componentsAssoc s)
      (fun a _ b _ ha hb => by
        have ha' : a.2 = c := by simpa using ha
        have hb' : b.2 = c := by simpa using hb
        simp [ha', hb'])
    unfold systemComponents
    rw [← hstable]
    set l := sSort (fun a b : String × Nat => decide (b.2 ≤ a.2)) (componentsAssoc s)
    refine ⟨(l.drop 10).filter (fun p => p.2 = c), ?_⟩
    rw [← List.filter_append, List.take_append_drop]

/-! ## Claim C6 -/

/-- Tickets for the C6 counterexample: a keyword-mode related set in which
the middle matching ticket has a missing `created_at` (keyword mode selects
on text, so it retains `NaT`-created tickets). -/
def c6t1 : Ticket :=
  { number := some "A", createdAt := some 200000, description := some "database down" }
def c6t2 : Ticket :=
  { number := some "B", createdAt := none, description := some "database slow today" }
def c6t3 : Ticket :=
  { number := some "C", createdAt := some 100000, description := some "database outage" }
def c6Store : Store :=
  { hasNumber := true, hasDescription := true, hasCreatedAt := true,
    rows := [c6t1, c6t2, c6t3] }

/-- The related-ticket set the locator produces for the counterexample
(keyword mode, all three tickets match "database"). -/
def c6Rel : Store :=
  relatedStore (rcaInit c6Store)
    (identifyRelatedRows (rcaInit c6Store) "database problems everywhere" 3)

/-- Claim C6 counterexample. The claim says the timeline is always sorted
non-decreasing by timestamp. For this keyword-mode related set the timeline
comes out as timestamps 200000, NaT, 100000: a `Created` event is emitted
even for the `NaT` ticket, `NaT` compares false against everything, so the
sort leaves the sequence unchanged (no adjacent pair compares as
descending) and an event with timestamp 100000 follows one with 200000. -/
theorem claim6_counterexample :
    c6Rel.rows = identifyRelatedRows (rcaInit c6Store) "database problems everywhere" 3 ∧
    (analyzeTimeline c6Rel).map (fun e => e.timestamp) =
      [some 200000, none, some 100000] ∧
    timelineSortedB (analyzeTimeline c6Rel) = false :=
  ⟨rfl, by decide, by decide⟩

/-- Claim C6 (corrected). Whenever every emitted event has a present
timestamp — `Resolved`/`Updated` events always do, and `Created` events do
exactly when no selected ticket has a missing `created_at` — the timeline
is sorted non-decreasing by timestamp, the sort is stable (filtering any
timestamp class out of the result returns those events in the original
per-ticket, per-type emission order), and re-running on the same input
yields an identical sequence (the reconstruction is a pure function, so
determinism is definitional). With a missing `created_at` among the
selected tickets the output can fail to be sorted (see the
counterexample). -/
theorem claim6_amended (s : Store)
    (h : ∀ e ∈ rawTimelineEvents s, e.timestamp.isSome = true) :
    timelineSortedB (analyzeTimeline s) = true ∧
    (∀ ts : Option Int,
      (analyzeTimeline s).filter (fun e => decide (e.timestamp = ts)) =
        (rawTimelineEvents s).filter (fun e => decide (e.timestamp = ts))) := by
  constructor
  · apply timelineSortedB_of_pairwise
    apply pairwise_sSort
    · intro x hx y hy
      obtain ⟨kx, hkx⟩ := Option.isSome_iff_exists.mp (h x hx)
      obtain ⟨ky, hky⟩ := Option.isSome_iff_exists.mp (h y hy)
      rcases Int.le_total kx ky with hle | hle
      · exact Or.inl (by simp [evLe, tsLt, hkx, hky]; omega)
      · exact Or.inr (by simp [evLe, tsLt, hkx, hky]; omega)
    · intro x hx y hy z hz hxy hyz
      obtain ⟨kx, hkx⟩ := Option.isSome_iff_exists.mp (h x hx)
      obtain ⟨ky, hky⟩ := Option.isSome_iff_exists.mp (h y hy)
      obtain ⟨kz, hkz⟩ := Option.isSome_iff_exists.mp (h z hz)
      simp [evLe, tsLt, hkx, hky, hkz] at hxy hyz ⊢
      omega
  · intro ts
    apply filter_sSort
    intro a _ b _ ha hb
    have ha' : a.timestamp = ts := of_decide_eq_true ha
    have hb' : b.timestamp = ts := of_decide_eq_true hb
    rw [evLe, hb', ← ha']
    cases hts : a.timestamp with
    | none => simp [tsLt]
    | some k => simp [tsLt]

/-- Witness for C6: a related set whose timestamps are all present. -/
theorem claim6_witness :
    timelineSortedB (analyzeTimeline
      { hasNumber := true, hasCreatedAt := true, hasResolvedAt := true,
        rows := [{ number := some "W1", createdAt := some 500, resolvedAt := some 900 },
                 { number := some "W2", createdAt := some 300, resolvedAt := none }] :
        Store }) = true :=
  (claim6_amended _ (by decide)).1

/-! ## Claim C9 -/

/-- Squaring characterisation of the threshold comparison: for a
nonnegative rational variance, `sqrt q < d` iff `d` is positive and its
square dominates `q`. -/
theorem real_threshold_iff (d q : ℚ) :
    (0 < d ∧ q < d ^ 2) ↔ Real.sqrt (q : ℝ) < (d : ℝ) := by
  constructor
  · rintro ⟨hd, hlt⟩
    have hd' : (0 : ℝ) < (d : ℝ) := by exact_mod_cast hd
    rw [Real.sqrt_lt' hd']
    exact_mod_cast hlt
  · intro hlt
    have hd' : (0 : ℝ) < (d : ℝ) := lt_of_le_of_lt (Real.sqrt_nonneg _) hlt
    have hd : 0 < d := by exact_mod_cast hd'
    refine ⟨hd, ?_⟩
    have := (Real.sqrt_lt' hd').mp hlt
    exact_mod_cast this

/-- The code's Boolean `count > mean + std` agrees with the real-valued
threshold once at least two distinct hours exist. -/
theorem peakTest_iff (s : Store) (h2 : 2 ≤ (hourCounts s).length) (c : Nat) :
    peakTest s c = true ↔
      (hourMean s : ℝ) + Real.sqrt ((hourVar s : ℚ) : ℝ) < (c : ℝ) := by
  unfold peakTest
  rw [if_neg (by omega)]
  rw [Bool.and_eq_true, decide_eq_true_iff, decide_eq_true_iff]
  rw [real_threshold_iff ((c : ℚ) - hourMean s) (hourVar s)]
  have hcast : (((c : ℚ) - hourMean s : ℚ) : ℝ) = (c : ℝ) - ((hourMean s : ℚ) : ℝ) := by
    push_cast
    ring
  rw [hcast]
  constructor
  · intro hlt
    linarith
  · intro hlt
    linarith

/-- Claim C9 (confirmed). When creation hours are available and the per-hour
count distribution has at least two entries (so the sample standard
deviation is defined), the temporal-clustering factor flags as peak hours
exactly those hours whose count exceeds the mean plus one standard
deviation of the distribution, and it reports no peak-hours entry iff no
hour exceeds that threshold. -/
theorem claim9_peak_hours (s : Store) (h1 : s.hasCreatedHour = true)
    (h2 : 2 ≤ (hourCounts s).length) :
    (∀ hc : Nat × Nat, hc ∈ peakList s ↔ hc ∈ hourCounts s ∧
      ((hourMean s : ℚ) : ℝ) + Real.sqrt ((hourVar s : ℚ) : ℝ) < (hc.2 : ℝ)) ∧
    ((analyzeTimePatterns s).peakHours = none ↔
      ∀ hc : Nat × Nat, hc ∈ hourCounts s →
        ¬ (((hourMean s : ℚ) : ℝ) + Real.sqrt ((hourVar s : ℚ) : ℝ) < (hc.2 : ℝ))) ∧
    (peakList s ≠ [] → (analyzeTimePatterns s).peakHours = some (peakList s)) := by
  have hmem : ∀ hc : Nat × Nat, hc ∈ peakList s ↔ hc ∈ hourCounts s ∧
      ((hourMean s : ℚ) : ℝ) + Real.sqrt ((hourVar s : ℚ) : ℝ) < (hc.2 : ℝ) := by
    intro hc
    unfold peakList
    rw [List.mem_filter]
    exact and_congr_right (fun _ => peakTest_iff s h2 hc.2)
  refine ⟨hmem, ?_, ?_⟩
  · unfold analyzeTimePatterns
    simp only [h1, if_true]
    by_cases he : (peakList s).isEmpty
    · simp only [he, if_true]
      constructor
      · intro _ hc hcmem hlt
        have : hc ∈ peakList s := (hmem hc).mpr ⟨hcmem, hlt⟩
        rw [List.isEmpty_iff] at he
        rw [he] at this
        exact (List.not_mem_nil hc) this
      · intro _
        trivial
    · simp only [he, if_false]
      constructor
      · intro hcontra
        exact absurd hcontra (by simp)
      · intro hall
        exfalso
        rw [List.isEmpty_iff] at he
        obtain ⟨hc, hcin⟩ := List.exists_mem_of_ne_nil _ he
        obtain ⟨hcmem, hlt⟩ := (hmem hc).mp hcin
        exact hall hc hcmem hlt
  · intro hne
    unfold analyzeTimePatterns
    simp only [h1, if_true]
    rw [if_neg (by rw [List.isEmpty_iff]; exact hne)]

/-- The C9 witness store after analyzer preprocessing: five tickets created
in hour 9 and one each in hours 1, 2, 3 (counts 5,1,1,1: mean 2, sample
variance 4, so hour 9 exceeds mean + std = 4). -/
def c9t (h : Nat) (i : Nat) : Ticket :=
  { number := some (toString i), createdAt := some ((h : Int) * 3600) }

def c9Store : Store :=
  rcaInit
    { hasNumber := true, hasCreatedAt := true,
      rows := [c9t 9 1, c9t 9 2, c9t 9 3, c9t 9 4, c9t 9 5,
               c9t 1 6, c9t 2 7, c9t 3 8] }

/-- Witness for C9: the peak-hour characterisation instantiated at the
concrete store above and the entry for hour 9. -/
theorem claim9_witness :
    (((9, 5) : Nat × Nat) ∈ peakList c9Store ↔
      ((9, 5) : Nat × Nat) ∈ hourCounts c9Store ∧
        ((hourMean c9Store : ℚ) : ℝ) + Real.sqrt ((hourVar c9Store : ℚ) : ℝ) <
          ((((9, 5) : Nat × Nat).2 : Nat) : ℝ)) :=
  (claim9_peak_hours c9Store (by decide) (by decide)).1 (9, 5)

/-! ## Claim C3 -/

/-- Spec-side count (following the claim's words): the number of tickets
whose `short_description` OR `description` matches the category's regex at
least once — each ticket counted once even if it matches in both fields. -/
def ticketsMatchingOnce (s : Store) (lits : List String) : Nat :=
  (s.rows.filter (fun t =>
    (s.hasShortDescription && matchesAny lits (strOfOpt t.shortDescription)) ||
    (s.hasDescription && matchesAny lits (strOfOpt t.description)))).length

/-- A single ticket matching the timeout regex in both text fields. -/
def c3Store : Store :=
  { hasShortDescription := true, hasDescription := true,
    rows := [{ shortDescription := some "connection timeout",
               description := some "the request timed out" }] }

/-- Claim C3 counterexample. The claim says a ticket matching in both fields
counts once. The field loop of `_extract_common_errors` is outermost, so
this single ticket is counted once per field: the code reports 2 where the
claim predicts 1. -/
theorem claim3_counterexample :
    errGet (commonErrors c3Store) "timeouts" = 2 ∧
    ticketsMatchingOnce c3Store ["timeout", "time out", "timed out"] = 1 ∧
    errGet (commonErrors c3Store) "timeouts" ≠
      ticketsMatchingOnce c3Store ["timeout", "time out", "timed out"] :=
  ⟨by decide, by decide, by decide⟩

theorem errGet_bumpIf (c : Bool) (a : List (String × Nat)) (k : String) (n : Nat)
    (name : String) :
    errGet (if c then bump a k n else a) name =
      errGet a name + (if c = true ∧ k = name then n else 0) := by
  cases c
  · simp
  · simp [errGet_bump]

theorem errGet_bumpAllErr (errs : List (String × Nat)) (text : String)
    (name : String) (lits : List String) (hmem : (name, lits) ∈ errorPatterns) :
    errGet (bumpAllErr errs text) name =
      errGet errs name + (if matchesAny lits text then 1 else 0) := by
  have hcases := hmem
  simp only [errorPatterns, List.mem_cons, List.not_mem_nil, or_false] at hcases
  rcases hcases with h | h | h | h | h | h | h <;>
    (obtain ⟨rfl, rfl⟩ := Prod.mk.injEq _ _ _ _ ▸ h) <;>
    (simp only [bumpAllErr, errorPatterns, List.foldl_cons, List.foldl_nil]
     simp +decide [errGet_bumpIf])

theorem errGet_processErrField (name : String) (lits : List String)
    (hmem : (name, lits) ∈ errorPatterns) :
    ∀ (texts : List String) (errs : List (String × Nat)),
      errGet (processErrField errs texts) name =
        errGet errs name + (texts.filter (fun t => matchesAny lits t)).length
  | [], errs => by simp [processErrField]
  | t :: ts, errs => by
    rw [processErrField, List.foldl_cons]
    have ih := errGet_processErrField name lits hmem ts (bumpAllErr errs t)
    rw [processErrField] at ih
    rw [ih, errGet_bumpAllErr errs t name lits hmem]
    by_cases hm : matchesAny lits t
    · simp [List.filter, hm]
      omega
    · simp [List.filter, hm]

/-- Scenario D: five tickets whose descriptions contain "timeout" and whose
text contains no other error keyword. -/
def dTicket (i : Nat) : Ticket :=
  { number := some (toString i), shortDescription := some "Ticket about widget",
    description := some "Request timeout observed in module" }

def dStore : Store :=
  { hasNumber := true, hasShortDescription := true, hasDescription := true,
    rows := [dTicket 1, dTicket 2, dTicket 3, dTicket 4, dTicket 5] }

/-- Claim C3 (corrected). For each of the seven categories, the
`common_errors` count is the number of (field, ticket) pairs whose text
matches the category's regex: the per-field counts of matching tickets
added over the two text fields, so a ticket matching in both fields counts
twice (within one field, multiple occurrences still count once). Scenario D
is unaffected: five tickets with "timeout" only in `description` give
`timeouts = 5`, every other category 0, and the Connection Timeout
Investigation recommendation appears in the formatted report. -/
theorem claim3_amended :
    (∀ (s : Store) (name : String) (lits : List String),
      (name, lits) ∈ errorPatterns →
      errGet (commonErrors s) name =
        (if s.hasShortDescription then
          (s.rows.filter (fun t => matchesAny lits (strOfOpt t.shortDescription))).length
         else 0) +
        (if s.hasDescription then
          (s.rows.filter (fun t => matchesAny lits (strOfOpt t.description))).length
         else 0)) ∧
    errGet (commonErrors dStore) "timeouts" = 5 ∧
    errGet (commonErrors dStore) "access_issues" = 0 ∧
    errGet (commonErrors dStore) "performance" = 0 ∧
    errGet (commonErrors dStore) "data_issues" = 0 ∧
    errGet (commonErrors dStore) "crashes" = 0 ∧
    errGet (commonErrors dStore) "connectivity" = 0 ∧
    errGet (commonErrors dStore) "authentication" = 0 ∧
    timeoutRecommendation ∈ buildRecommendations (commonErrors dStore) := by
  refine ⟨?_, by decide, by decide, by decide, by decide, by decide, by decide,
    by decide, by decide⟩
  intro s name lits hmem
  unfold commonErrors
  rw [errGet_processErrField name lits hmem, errGet_processErrField name lits hmem]
  have herr : errGet [] name = 0 := rfl
  rw [herr]
  unfold fieldTexts
  by_cases hsd : s.hasShortDescription <;> by_cases hd : s.hasDescription <;>
    simp [hsd, hd, List.filter_map, Function.comp_def]

/-- Witness for C3: the per-category counting formula instantiated at the
Scenario D store and the timeouts category. -/
theorem claim3_witness :
    errGet (commonErrors dStore) "timeouts" =
      (if dStore.hasShortDescription then
        (dStore.rows.filter (fun t =>
          matchesAny ["timeout", "time out", "timed out"]
            (strOfOpt t.shortDescription))).length
       else 0) +
      (if dStore.hasDescription then
        (dStore.rows.filter (fun t =>
          matchesAny ["timeout", "time out", "timed out"]
            (strOfOpt t.description))).length
       else 0) :=
  claim3_amended.1 dStore "timeouts" ["timeout", "time out", "timed out"] (by decide)

end RCA
